import Mathlib

/-!
Shallow embedding of the Densha Controller ("mascon") control-state-to-wire-report
codec from `pcsx2/USB/usb-pad/usb-mascon.cpp` / `usb-mascon.h`.

Machine integers are modelled as `Nat` with explicit `% 256` truncation at the
points where the C code stores into a `u8` field; `float` arithmetic is modelled
over `ℚ` (the values involved — small integer ratios — make the rational model
the intended real-number semantics of the code).
-/

namespace Mascon

/-- `enum MasconTypes` from usb-mascon.h. -/
inductive MasconTypes
  | MT_TYPE2
  | MT_SHINKANSEN
  | MT_RYOJOUHEN
  | MT_COUNT
deriving DecidableEq, Repr

export MasconTypes (MT_TYPE2 MT_SHINKANSEN MT_RYOJOUHEN MT_COUNT)

/-- The anonymous `data` struct inside `MasconState`: four 1-bit hat flags and
four `u8` fields.  `u8` fields are `Nat`s kept below 256 by explicit truncation
in the operations. -/
structure ControlData where
  hat_left : Bool
  hat_right : Bool
  hat_up : Bool
  hat_down : Bool
  power : Nat
  brake : Nat
  hatswitch : Nat
  buttons : Nat
deriving DecidableEq, Repr

/-- `enum MasconControlID` values. -/
def CID_MC_POWER : Nat := 0
def CID_MC_BRAKE : Nat := 1
def CID_MC_UP : Nat := 2
def CID_MC_RIGHT : Nat := 3
def CID_MC_DOWN : Nat := 4
def CID_MC_LEFT : Nat := 5
def CID_MC_B : Nat := 6
def CID_MC_A : Nat := 7
def CID_MC_C : Nat := 8
def CID_MC_D : Nat := 9
def CID_MC_SELECT : Nat := 10
def CID_MC_START : Nat := 11
def BUTTONS_OFFSET : Nat := 6

/-- Truncation of a store into a `u8` field. -/
def u8 (n : Nat) : Nat := n % 256

/-- `button_mask(bind_index)`: `1u << (bind_index - BUTTONS_OFFSET)`. -/
def button_mask (bind_index : Nat) : Nat := 1 <<< (bind_index - BUTTONS_OFFSET)

/-- `button_at(value, index)`: `value & button_mask(index)`. -/
def button_at (value : Nat) (index : Nat) : Nat := value &&& button_mask index

/-- `MasconState::Reset()`: zeroes `power` and `brake` only. -/
def Reset (d : ControlData) : ControlData := { d with power := 0x00, brake := 0x00 }

/-- `lroundf`: round half away from zero, over the rational model of `float`. -/
def lroundf (x : ℚ) : Int := if 0 ≤ x then ⌊x + 1/2⌋ else -⌊-x + 1/2⌋

/-- `std::clamp<long>(v, lo, hi)`. -/
def std_clamp (v lo hi : Int) : Int := if v < lo then lo else if hi < v then hi else v

/-- The axis/hat store expression
`static_cast<u32>(std::clamp<long>(std::lroundf(value * 255.0f), 0, 255))`,
followed by the implicit narrowing into the `u8` field. -/
def axis_byte (value : ℚ) : Nat := u8 (std_clamp (lroundf (value * 255)) 0 255).toNat

/-- `MasconState::GetBindValue`, returning the `float` result as a rational. -/
def GetBindValue (d : ControlData) (bind_index : Nat) : ℚ :=
  match bind_index with
  | 0 => (d.power : ℚ) / 255
  | 1 => (d.brake : ℚ) / 255
  | 2 => if d.hat_up then 1 else 0
  | 4 => if d.hat_down then 1 else 0
  | 5 => if d.hat_left then 1 else 0
  | 3 => if d.hat_right then 1 else 0
  | 6 | 7 | 8 | 9 | 10 | 11 =>
    if button_at d.buttons bind_index ≠ 0 then 1 else 0
  | _ => 0

/-- `MasconState::UpdateHatSwitch()`: the first-match cascade assigning
`data.hatswitch` from the four hat flags. -/
def UpdateHatSwitch (d : ControlData) : ControlData :=
  { d with hatswitch :=
      if d.hat_up && d.hat_right then 1
      else if d.hat_right && d.hat_down then 3
      else if d.hat_down && d.hat_left then 5
      else if d.hat_left && d.hat_up then 7
      else if d.hat_up then 0
      else if d.hat_right then 2
      else if d.hat_down then 4
      else if d.hat_left then 6
      else 8 }

/-- The hat-switch encoder as a pure function of the four flags (the body of
`UpdateHatSwitch` abstracted over the flags it reads). -/
def hat_encode (up right down left : Bool) : Nat :=
  if up && right then 1
  else if right && down then 3
  else if down && left then 5
  else if left && up then 7
  else if up then 0
  else if right then 2
  else if down then 4
  else if left then 6
  else 8

/-- `MasconState::SetBindValue`. Hat-flag stores are a `u8` narrowed into a
1-bit `bool` bitfield, i.e. nonzero becomes `true`. -/
def SetBindValue (d : ControlData) (bind_index : Nat) (value : ℚ) : ControlData :=
  match bind_index with
  | 0 => { d with power := axis_byte value }
  | 1 => { d with brake := axis_byte value }
  | 2 => UpdateHatSwitch { d with hat_up := axis_byte value ≠ 0 }
  | 4 => UpdateHatSwitch { d with hat_down := axis_byte value ≠ 0 }
  | 5 => UpdateHatSwitch { d with hat_left := axis_byte value ≠ 0 }
  | 3 => UpdateHatSwitch { d with hat_right := axis_byte value ≠ 0 }
  | 6 | 7 | 8 | 9 | 10 | 11 =>
    let mask := button_mask bind_index
    if value ≥ 1/2 then { d with buttons := u8 (d.buttons ||| mask) }
    else { d with buttons := u8 (d.buttons &&& (0xFFFFFFFF ^^^ mask)) }
  | _ => d

/-- The notch-table scan shared by the four quantizers: return the output of the
first pair whose threshold is ≤ the input; `dflt` is the fall-through return
(`notches[size-1].second` in the C code). -/
def notch_lookup : List (Nat × Nat) → Nat → Nat → Nat
  | [], _, dflt => dflt
  | x :: rest, value, dflt => if value ≥ x.1 then x.2 else notch_lookup rest value dflt

/-- The `notches` table of `dct01_power`. -/
def dct01_power_notches : List (Nat × Nat) :=
  [(0xF8, 0x00), (0xC8, 0x21), (0x98, 0x3F), (0x58, 0x54), (0x28, 0x6D), (0x00, 0x81)]

/-- `dct01_power(value)`: Type 2 power quantizer. -/
def dct01_power (value : Nat) : Nat :=
  notch_lookup dct01_power_notches value (dct01_power_notches.getLastD (0, 0)).2

/-- The `notches` table of `dct01_brake`. -/
def dct01_brake_notches : List (Nat × Nat) :=
  [(0xF8, 0xB9), (0xE6, 0xB5), (0xCA, 0xB2), (0xAE, 0xAF), (0x92, 0xA8),
   (0x76, 0xA2), (0x5A, 0x9A), (0x3E, 0x94), (0x22, 0x8A), (0x00, 0x79)]

/-- `dct01_brake(value)`: Type 2 brake quantizer. -/
def dct01_brake (value : Nat) : Nat :=
  notch_lookup dct01_brake_notches value (dct01_brake_notches.getLastD (0, 0)).2

/-- The `notches` table of `dct02_power`. -/
def dct02_power_notches : List (Nat × Nat) :=
  [(0xF7, 0xFB), (0xE4, 0xE9), (0xD1, 0xD7), (0xBE, 0xC6), (0xAB, 0xB4),
   (0x98, 0xA2), (0x85, 0x90), (0x72, 0x7E), (0x5F, 0x6C), (0x4C, 0x5A),
   (0x39, 0x48), (0x26, 0x36), (0x13, 0x24), (0x00, 0x12)]

/-- `dct02_power(value)`: Shinkansen power quantizer. -/
def dct02_power (value : Nat) : Nat :=
  notch_lookup dct02_power_notches value (dct02_power_notches.getLastD (0, 0)).2

/-- The `notches` table of `dct02_brake`. -/
def dct02_brake_notches : List (Nat × Nat) :=
  [(0xF8, 0xFB), (0xCA, 0xDF), (0xAE, 0xC3), (0x92, 0xA7), (0x76, 0x8B),
   (0x5A, 0x70), (0x3E, 0x54), (0x22, 0x38), (0x00, 0x1C)]

/-- `dct02_brake(value)`: Shinkansen brake quantizer. -/
def dct02_brake (value : Nat) : Nat :=
  notch_lookup dct02_brake_notches value (dct02_brake_notches.getLastD (0, 0)).2

/-- `get_ab(buttons)` macro. -/
def get_ab (buttons : Nat) : Nat :=
  button_at buttons CID_MC_A ||| button_at buttons CID_MC_B

/-- `swap_cd(buttons)` macro. -/
def swap_cd (buttons : Nat) : Nat :=
  (button_at buttons CID_MC_C <<< 1) ||| (button_at buttons CID_MC_D >>> 1)

/-- `get_ss(buttons)` macro. -/
def get_ss (buttons : Nat) : Nat :=
  button_at buttons CID_MC_START ||| button_at buttons CID_MC_SELECT

/-- `dct01_buttons`: Type 2 button remapper (identity). -/
def dct01_buttons (buttons : Nat) : Nat := buttons

/-- `dct02_buttons`: Shinkansen button remapper, truncated to the `u8` return. -/
def dct02_buttons (buttons : Nat) : Nat :=
  u8 ((get_ab buttons <<< 2) ||| (swap_cd buttons >>> 2) ||| get_ss buttons)

/-- Modelled from the spec: `USB_RET_IOERROR` is defined in the qemu-usb headers,
which are not among the sources; §7 of the spec specifies only that an
unsupported variant is surfaced as a negative error report length. -/
def USB_RET_IOERROR : Int := -5

/-- `MasconState::TokenIn(buf, len)`. The endpoint buffer is modelled as a
total map from byte index to byte; the call returns the `int` result, the
post-call `data` struct, and the post-call buffer. The `len` parameter is
reassigned before being returned on success and otherwise unused, exactly as in
the C code. -/
def TokenIn (d : ControlData) (type : MasconTypes) (buf : Nat → Nat) (_len : Int) :
    Int × ControlData × (Nat → Nat) :=
  let d := UpdateHatSwitch d
  match type with
  | MT_TYPE2 =>
    let buf := fun i =>
      if i = 0 then 0x1
      else if i = 1 then dct01_brake d.brake
      else if i = 2 then dct01_power d.power
      else if i = 3 then 0xFF
      else if i = 4 then d.hatswitch &&& 0x0F
      else if i = 5 then dct01_buttons d.buttons
      else buf i
    (6, d, buf)
  | MT_SHINKANSEN =>
    let buf := fun i =>
      if i = 0 then dct02_brake d.brake
      else if i = 1 then dct02_power d.power
      else if i = 2 then 0xFF
      else if i = 3 then d.hatswitch &&& 0x0F
      else if i = 4 then dct02_buttons d.buttons
      else if i = 5 then 0
      else buf i
    (6, d, buf)
  | _ => (USB_RET_IOERROR, d, buf)

end Mascon

/-! ## Helper lemmas -/

set_option maxRecDepth 8192

namespace Mascon

/-- A function that rises at every adjacent step of the byte range is monotone
non-decreasing over [0,255]. -/
theorem mono_of_adjacent (f : Nat → Nat) (h : ∀ i : Fin 255, f i.val ≤ f (i.val + 1)) :
    ∀ x y : Nat, x ≤ y → y ≤ 255 → f x ≤ f y := by
  intro x y hxy hy
  induction y with
  | zero => cases Nat.le_zero.mp hxy; exact Nat.le_refl _
  | succ n ih =>
    rcases Nat.lt_or_ge x (n + 1) with hlt | hge
    · exact Nat.le_trans (ih (Nat.lt_succ_iff.mp hlt) (by omega)) (h ⟨n, by omega⟩)
    · have hx : x = n + 1 := Nat.le_antisymm hxy hge
      cases hx; exact Nat.le_refl _

/-- A function that falls at every adjacent step of the byte range is monotone
non-increasing over [0,255]. -/
theorem anti_of_adjacent (f : Nat → Nat) (h : ∀ i : Fin 255, f (i.val + 1) ≤ f i.val) :
    ∀ x y : Nat, x ≤ y → y ≤ 255 → f y ≤ f x := by
  intro x y hxy hy
  induction y with
  | zero => cases Nat.le_zero.mp hxy; exact Nat.le_refl _
  | succ n ih =>
    rcases Nat.lt_or_ge x (n + 1) with hlt | hge
    · exact Nat.le_trans (h ⟨n, by omega⟩) (ih (Nat.lt_succ_iff.mp hlt) (by omega))
    · have hx : x = n + 1 := Nat.le_antisymm hxy hge
      cases hx; exact Nat.le_refl _

theorem dct01_brake_step : ∀ i : Fin 255, dct01_brake i.val ≤ dct01_brake (i.val + 1) := by
  decide

theorem dct02_power_step : ∀ i : Fin 255, dct02_power i.val ≤ dct02_power (i.val + 1) := by
  decide

theorem dct02_brake_step : ∀ i : Fin 255, dct02_brake i.val ≤ dct02_brake (i.val + 1) := by
  decide

theorem dct01_power_step : ∀ i : Fin 255, dct01_power (i.val + 1) ≤ dct01_power i.val := by
  decide

end Mascon

/-! ## Claim theorems -/

namespace Mascon

/-- A concrete control state used to instantiate witnesses. -/
def d0 : ControlData := ⟨false, false, false, false, 0, 0, 0, 0⟩

/-- C1 (counterexample): the claim as stated is false — for the Type2 power
table, `quantize` is not non-decreasing: at x = 0 ≤ y = 255 (both in [0,255]),
`dct01_power 0 = 0x81 > 0x00 = dct01_power 255`. -/
theorem C1_counterexample :
    (0 : Nat) ≤ 255 ∧ (255 : Nat) ≤ 255 ∧ ¬ dct01_power 0 ≤ dct01_power 255 := by
  decide

/-- C1 (amended): over the whole byte range [0,255], `quantize` is monotone
non-decreasing for the Type2 brake, Shinkansen power and Shinkansen brake
tables, and monotone non-increasing for the Type2 power table (whose outputs
descend from 0x81 at neutral to 0x00 at full power). -/
theorem C1_quantize_monotone (x y : Nat) (hxy : x ≤ y) (hy : y ≤ 255) :
    dct01_brake x ≤ dct01_brake y ∧
    dct02_power x ≤ dct02_power y ∧
    dct02_brake x ≤ dct02_brake y ∧
    dct01_power y ≤ dct01_power x :=
  ⟨mono_of_adjacent dct01_brake dct01_brake_step x y hxy hy,
   mono_of_adjacent dct02_power dct02_power_step x y hxy hy,
   mono_of_adjacent dct02_brake dct02_brake_step x y hxy hy,
   anti_of_adjacent dct01_power dct01_power_step x y hxy hy⟩

/-- Witness for C1: the amended monotonicity at the concrete pair (0x28, 0xC8). -/
theorem C1_quantize_monotone_witness :
    dct01_brake 0x28 ≤ dct01_brake 0xC8 ∧
    dct02_power 0x28 ≤ dct02_power 0xC8 ∧
    dct02_brake 0x28 ≤ dct02_brake 0xC8 ∧
    dct01_power 0xC8 ≤ dct01_power 0x28 :=
  C1_quantize_monotone 0x28 0xC8 (by decide) (by decide)

/-- The Scenario A state of C2: power 0xFF, brake 0x00, buttons 0, all four hat
flags false (the derived hatswitch field starts at 0 here; `TokenIn` recomputes
it before serializing). -/
def scenarioA : ControlData := ⟨false, false, false, false, 0xFF, 0x00, 0, 0⟩

/-- C2 (counterexample): the claim as stated is false — on the Scenario A state
the Type2 report is not `[0x01, 0x79, 0x81, 0xFF, 0x08, 0x00]`: byte 2 is
`dct01_power 0xFF = 0x00`, not `0x81` (the Type2 power table is inverted, so
`0x81` is the output for power 0x00, not 0xFF). -/
theorem C2_counterexample :
    ¬ ((TokenIn scenarioA MT_TYPE2 (fun _ => 0) 6).1 = 6 ∧
       [(TokenIn scenarioA MT_TYPE2 (fun _ => 0) 6).2.2 0,
        (TokenIn scenarioA MT_TYPE2 (fun _ => 0) 6).2.2 1,
        (TokenIn scenarioA MT_TYPE2 (fun _ => 0) 6).2.2 2,
        (TokenIn scenarioA MT_TYPE2 (fun _ => 0) 6).2.2 3,
        (TokenIn scenarioA MT_TYPE2 (fun _ => 0) 6).2.2 4,
        (TokenIn scenarioA MT_TYPE2 (fun _ => 0) 6).2.2 5] =
         [0x01, 0x79, 0x81, 0xFF, 0x08, 0x00]) := by
  decide

/-- C2 (amended): for a Type2-model codec whose state holds power = 0xFF,
brake = 0x00, buttons = 0 and all four hat flags false (any stored hatswitch,
any incoming buffer), `TokenIn` fills bytes 0–5 with exactly
`[0x01, 0x79, 0x00, 0xFF, 0x08, 0x00]` and returns length 6. -/
theorem C2_scenarioA_report (hs : Nat) (buf : Nat → Nat) (len : Int) :
    (TokenIn ⟨false, false, false, false, 0xFF, 0x00, hs, 0⟩ MT_TYPE2 buf len).1 = 6 ∧
    [(TokenIn ⟨false, false, false, false, 0xFF, 0x00, hs, 0⟩ MT_TYPE2 buf len).2.2 0,
     (TokenIn ⟨false, false, false, false, 0xFF, 0x00, hs, 0⟩ MT_TYPE2 buf len).2.2 1,
     (TokenIn ⟨false, false, false, false, 0xFF, 0x00, hs, 0⟩ MT_TYPE2 buf len).2.2 2,
     (TokenIn ⟨false, false, false, false, 0xFF, 0x00, hs, 0⟩ MT_TYPE2 buf len).2.2 3,
     (TokenIn ⟨false, false, false, false, 0xFF, 0x00, hs, 0⟩ MT_TYPE2 buf len).2.2 4,
     (TokenIn ⟨false, false, false, false, 0xFF, 0x00, hs, 0⟩ MT_TYPE2 buf len).2.2 5] =
      [0x01, 0x79, 0x00, 0xFF, 0x08, 0x00] := by
  refine ⟨rfl, ?_⟩
  have h4 : (TokenIn ⟨false, false, false, false, 0xFF, 0x00, hs, 0⟩ MT_TYPE2 buf len).2.2 4
      = 8 := by
    show (8 : Nat) &&& 15 = 8
    decide
  rw [h4]
  rfl

end Mascon

namespace Mascon

/-- C3: the hat-switch encoder stays in [0,8] on all 16 flag combinations, and
its exact value table follows the source's first-match precedence: diagonal
pairs first (up&&right→1, right&&down→3, down&&left→5, left&&up→7), then single
flags (up→0, right→2, down→4, left→6), else 8; in particular
(up=true, down=true, left=false, right=false) yields 0, not neutral.
Argument order of `hat_encode` is (up, right, down, left); the equations below
enumerate the claim's (up, down, left, right) tuples. -/
theorem C3_hat_encode_table :
    (∀ up right down left : Bool, hat_encode up right down left ≤ 8) ∧
    hat_encode false false false false = 8 ∧
    hat_encode true false false false = 0 ∧
    hat_encode false false true false = 4 ∧
    hat_encode false false false true = 6 ∧
    hat_encode false true false false = 2 ∧
    hat_encode true false true false = 0 ∧
    hat_encode true false false true = 7 ∧
    hat_encode true true false false = 1 ∧
    hat_encode false false true true = 5 ∧
    hat_encode false true true false = 3 ∧
    hat_encode false true false true = 2 ∧
    hat_encode true false true true = 5 ∧
    hat_encode true true true false = 1 ∧
    hat_encode true true false true = 1 ∧
    hat_encode false true true true = 3 ∧
    hat_encode true true true true = 1 := by
  decide

/-- C4: `TokenIn` reports byte count 6 for the Type2 and Shinkansen variants
and a negative error value for Ryojouhen (and for the `MT_COUNT` sentinel,
which likewise lacks a serializer), for every state, buffer and length. -/
theorem C4_report_length (d : ControlData) (buf : Nat → Nat) (len : Int) :
    (TokenIn d MT_TYPE2 buf len).1 = 6 ∧
    (TokenIn d MT_SHINKANSEN buf len).1 = 6 ∧
    (TokenIn d MT_RYOJOUHEN buf len).1 < 0 ∧
    (TokenIn d MT_COUNT buf len).1 < 0 :=
  ⟨rfl, rfl,
   by show USB_RET_IOERROR < 0; decide,
   by show USB_RET_IOERROR < 0; decide⟩

/-- C5: `Reset` zeroes power and brake and changes nothing else — afterwards
`GetBindValue` yields 0 for the Power and Brake axes while the four hat flags,
the derived hatswitch byte and the buttons byte are exactly their pre-reset
values, so every hat and button binding (indices 2–11) reads its pre-reset
value. -/
theorem C5_reset_effect (d : ControlData) :
    GetBindValue (Reset d) CID_MC_POWER = 0 ∧
    GetBindValue (Reset d) CID_MC_BRAKE = 0 ∧
    (Reset d).hat_up = d.hat_up ∧
    (Reset d).hat_down = d.hat_down ∧
    (Reset d).hat_left = d.hat_left ∧
    (Reset d).hat_right = d.hat_right ∧
    (Reset d).hatswitch = d.hatswitch ∧
    (Reset d).buttons = d.buttons ∧
    GetBindValue (Reset d) CID_MC_UP = GetBindValue d CID_MC_UP ∧
    GetBindValue (Reset d) CID_MC_RIGHT = GetBindValue d CID_MC_RIGHT ∧
    GetBindValue (Reset d) CID_MC_DOWN = GetBindValue d CID_MC_DOWN ∧
    GetBindValue (Reset d) CID_MC_LEFT = GetBindValue d CID_MC_LEFT ∧
    GetBindValue (Reset d) CID_MC_B = GetBindValue d CID_MC_B ∧
    GetBindValue (Reset d) CID_MC_A = GetBindValue d CID_MC_A ∧
    GetBindValue (Reset d) CID_MC_C = GetBindValue d CID_MC_C ∧
    GetBindValue (Reset d) CID_MC_D = GetBindValue d CID_MC_D ∧
    GetBindValue (Reset d) CID_MC_SELECT = GetBindValue d CID_MC_SELECT ∧
    GetBindValue (Reset d) CID_MC_START = GetBindValue d CID_MC_START := by
  refine ⟨?_, ?_, rfl, rfl, rfl, rfl, rfl, rfl,
    rfl, rfl, rfl, rfl, rfl, rfl, rfl, rfl, rfl, rfl⟩ <;>
    simp [GetBindValue, Reset, CID_MC_POWER, CID_MC_BRAKE]

end Mascon

namespace Mascon

/-- The quantization error of the axis store: for an input in [0,1], the stored
byte divided by 255 is within 1/255 of the input (the true bound is 1/510). -/
theorem axis_byte_roundtrip (v : ℚ) (h0 : 0 ≤ v) (h1 : v ≤ 1) :
    |((axis_byte v : ℚ)) / 255 - v| ≤ 1 / 255 := by
  have hx0 : (0 : ℚ) ≤ v * 255 := by positivity
  have hfloor_le : (⌊v * 255 + 1/2⌋ : ℚ) ≤ v * 255 + 1/2 := Int.floor_le _
  have hlt : v * 255 + 1/2 - 1 < (⌊v * 255 + 1/2⌋ : ℚ) := Int.sub_one_lt_floor _
  have hn0 : (0 : Int) ≤ ⌊v * 255 + 1/2⌋ := by
    apply Int.le_floor.mpr
    push_cast
    linarith
  have hn255 : ⌊v * 255 + 1/2⌋ ≤ 255 := by
    have h : ((⌊v * 255 + 1/2⌋ : Int) : ℚ) < 256 := by linarith
    have h2 : (⌊v * 255 + 1/2⌋ : Int) < 256 := by exact_mod_cast h
    omega
  have hax : ((axis_byte v : Nat) : ℚ) = ((⌊v * 255 + 1/2⌋ : Int) : ℚ) := by
    have htn : ((⌊v * 255 + 1/2⌋.toNat : Nat) : Int) = ⌊v * 255 + 1/2⌋ :=
      Int.toNat_of_nonneg hn0
    unfold axis_byte lroundf std_clamp u8
    rw [if_pos hx0, if_neg (by omega), if_neg (by omega), Nat.mod_eq_of_lt (by omega)]
    exact_mod_cast congrArg (fun z : Int => (z : ℚ)) htn
  rw [hax, abs_le]
  constructor <;> linarith

/-- C6: for the Power and Brake axis binding indices and any value v in [0,1],
`SetBindValue` followed by `GetBindValue` returns a value within 1/255 of v. -/
theorem C6_axis_roundtrip (d : ControlData) (i : Nat) (v : ℚ)
    (hi : i = CID_MC_POWER ∨ i = CID_MC_BRAKE) (h0 : 0 ≤ v) (h1 : v ≤ 1) :
    |GetBindValue (SetBindValue d i v) i - v| ≤ 1 / 255 := by
  rcases hi with h | h <;> subst h
  · show |((axis_byte v : Nat) : ℚ) / 255 - v| ≤ 1 / 255
    exact axis_byte_roundtrip v h0 h1
  · show |((axis_byte v : Nat) : ℚ) / 255 - v| ≤ 1 / 255
    exact axis_byte_roundtrip v h0 h1

/-- Witness for C6: the round-trip bound at the Power axis with v = 1/2. -/
theorem C6_axis_roundtrip_witness :
    |GetBindValue (SetBindValue d0 CID_MC_POWER (1/2)) CID_MC_POWER - 1/2| ≤ 1 / 255 :=
  C6_axis_roundtrip d0 CID_MC_POWER (1/2) (Or.inl rfl) (by norm_num) (by norm_num)

end Mascon

namespace Mascon

/-- C7: for each implemented variant, the button remapper is a bijection on the
64-element space of 6-bit logical button combinations: it maps that space into
itself and no two distinct combinations map to the same wire byte (Type2 is the
identity; Shinkansen is the bit permutation of `dct02_buttons`). -/
theorem C7_button_remap_bijective (a b : Fin 64) :
    dct01_buttons a.val < 64 ∧
    dct02_buttons a.val < 64 ∧
    (dct01_buttons a.val = dct01_buttons b.val → a = b) ∧
    (dct02_buttons a.val = dct02_buttons b.val → a = b) := by
  revert a b
  decide

/-- Witness for C7: both remappers applied at the concrete pair (0x2A, 0x2A). -/
theorem C7_button_remap_bijective_witness :
    dct01_buttons (0x2A : Fin 64).val < 64 ∧
    dct02_buttons (0x2A : Fin 64).val < 64 ∧
    (0x2A : Fin 64) = 0x2A ∧ (0x2A : Fin 64) = 0x2A :=
  ⟨(C7_button_remap_bijective 0x2A 0x2A).1,
   (C7_button_remap_bijective 0x2A 0x2A).2.1,
   (C7_button_remap_bijective 0x2A 0x2A).2.2.1 rfl,
   (C7_button_remap_bijective 0x2A 0x2A).2.2.2 rfl⟩

/-- The §3 invariant: the stored hatswitch byte equals the hat-switch encoder's
output for the current four hat flags. -/
def hat_inv (d : ControlData) : Prop :=
  d.hatswitch = hat_encode d.hat_up d.hat_right d.hat_down d.hat_left

/-- `UpdateHatSwitch` establishes the hatswitch invariant. -/
theorem hat_inv_update (d : ControlData) : hat_inv (UpdateHatSwitch d) := rfl

/-- A buttons-only record update (either branch of the button store) leaves the
four hat flags and the hatswitch byte unchanged. -/
theorem buttons_update_hat (d : ControlData) (c : Prop) [Decidable c] (x y : Nat) :
    ((if c then { d with buttons := x } else { d with buttons := y } : ControlData).hat_up
        = d.hat_up) ∧
    ((if c then { d with buttons := x } else { d with buttons := y } : ControlData).hat_right
        = d.hat_right) ∧
    ((if c then { d with buttons := x } else { d with buttons := y } : ControlData).hat_down
        = d.hat_down) ∧
    ((if c then { d with buttons := x } else { d with buttons := y } : ControlData).hat_left
        = d.hat_left) ∧
    ((if c then { d with buttons := x } else { d with buttons := y } : ControlData).hatswitch
        = d.hatswitch) := by
  split <;> exact ⟨rfl, rfl, rfl, rfl, rfl⟩

/-- C8: after any hat-flag mutation through `SetBindValue` the stored hatswitch
byte equals the encoder's output for the current flags; every non-hat
`SetBindValue` leaves the four flags and the hatswitch byte untouched (so it
cannot invalidate the invariant); and `TokenIn` recomputes the hatswitch on
entry, so report serialization never observes a stale value. -/
theorem C8_hatswitch_invariant :
    (∀ d i v, i = CID_MC_UP ∨ i = CID_MC_RIGHT ∨ i = CID_MC_DOWN ∨ i = CID_MC_LEFT →
      hat_inv (SetBindValue d i v)) ∧
    (∀ d i v, ¬(i = CID_MC_UP ∨ i = CID_MC_RIGHT ∨ i = CID_MC_DOWN ∨ i = CID_MC_LEFT) →
      (SetBindValue d i v).hat_up = d.hat_up ∧
      (SetBindValue d i v).hat_right = d.hat_right ∧
      (SetBindValue d i v).hat_down = d.hat_down ∧
      (SetBindValue d i v).hat_left = d.hat_left ∧
      (SetBindValue d i v).hatswitch = d.hatswitch) ∧
    (∀ d t buf len, hat_inv (TokenIn d t buf len).2.1) := by
  refine ⟨?_, ?_, ?_⟩
  · intro d i v h
    rcases h with h | h | h | h <;> subst h <;> exact hat_inv_update _
  · intro d i v h
    rcases i with _ | _ | _ | _ | _ | _ | _ | _ | _ | _ | _ | _ | n
    · exact ⟨rfl, rfl, rfl, rfl, rfl⟩
    · exact ⟨rfl, rfl, rfl, rfl, rfl⟩
    · exact absurd (Or.inl rfl) h
    · exact absurd (Or.inr (Or.inl rfl)) h
    · exact absurd (Or.inr (Or.inr (Or.inl rfl))) h
    · exact absurd (Or.inr (Or.inr (Or.inr rfl))) h
    · exact buttons_update_hat d _ _ _
    · exact buttons_update_hat d _ _ _
    · exact buttons_update_hat d _ _ _
    · exact buttons_update_hat d _ _ _
    · exact buttons_update_hat d _ _ _
    · exact buttons_update_hat d _ _ _
    · exact ⟨rfl, rfl, rfl, rfl, rfl⟩
  · intro d t buf len
    cases t <;> exact hat_inv_update _

/-- Witness for C8: the invariant after a concrete hat write, the preservation
statement after a concrete axis write, and the invariant inside a concrete
`TokenIn` call. -/
theorem C8_hatswitch_invariant_witness :
    hat_inv (SetBindValue d0 CID_MC_UP 1) ∧
    ((SetBindValue d0 CID_MC_POWER 1).hat_up = d0.hat_up ∧
     (SetBindValue d0 CID_MC_POWER 1).hat_right = d0.hat_right ∧
     (SetBindValue d0 CID_MC_POWER 1).hat_down = d0.hat_down ∧
     (SetBindValue d0 CID_MC_POWER 1).hat_left = d0.hat_left ∧
     (SetBindValue d0 CID_MC_POWER 1).hatswitch = d0.hatswitch) ∧
    hat_inv (TokenIn d0 MT_TYPE2 (fun _ => 0) 6).2.1 :=
  ⟨C8_hatswitch_invariant.1 d0 CID_MC_UP 1 (Or.inl rfl),
   C8_hatswitch_invariant.2.1 d0 CID_MC_POWER 1 (by decide),
   C8_hatswitch_invariant.2.2 d0 MT_TYPE2 (fun _ => 0) 6⟩

/-- C9: for every binding index outside the defined enumeration (index ≥ 12),
`GetBindValue` returns exactly 0 and `SetBindValue` leaves the entire control
state unchanged; neither operation signals failure (both are total). -/
theorem C9_unknown_index (d : ControlData) (i : Nat) (v : ℚ) (h : 12 ≤ i) :
    GetBindValue d i = 0 ∧ SetBindValue d i v = d := by
  obtain ⟨n, rfl⟩ : ∃ n, i = n + 12 := ⟨i - 12, by omega⟩
  exact ⟨rfl, rfl⟩

/-- Witness for C9: index 12 (the first out-of-range index). -/
theorem C9_unknown_index_witness :
    GetBindValue d0 12 = 0 ∧ SetBindValue d0 12 0 = d0 :=
  C9_unknown_index d0 12 0 (by decide)

/-- C10: invoking `TokenIn` with the Ryojouhen variant returns the error code
without writing any byte of the output buffer, and the power, brake, hat-flag
and buttons fields are exactly as before the call; only the hatswitch byte is
recomputed, to the value the invariant already requires. -/
theorem C10_ryojouhen_atomicity (d : ControlData) (buf : Nat → Nat) (len : Int) :
    (TokenIn d MT_RYOJOUHEN buf len).1 = USB_RET_IOERROR ∧
    (TokenIn d MT_RYOJOUHEN buf len).2.2 = buf ∧
    (TokenIn d MT_RYOJOUHEN buf len).2.1.power = d.power ∧
    (TokenIn d MT_RYOJOUHEN buf len).2.1.brake = d.brake ∧
    (TokenIn d MT_RYOJOUHEN buf len).2.1.hat_up = d.hat_up ∧
    (TokenIn d MT_RYOJOUHEN buf len).2.1.hat_right = d.hat_right ∧
    (TokenIn d MT_RYOJOUHEN buf len).2.1.hat_down = d.hat_down ∧
    (TokenIn d MT_RYOJOUHEN buf len).2.1.hat_left = d.hat_left ∧
    (TokenIn d MT_RYOJOUHEN buf len).2.1.buttons = d.buttons ∧
    (TokenIn d MT_RYOJOUHEN buf len).2.1.hatswitch =
      hat_encode d.hat_up d.hat_right d.hat_down d.hat_left := by
  exact ⟨rfl, rfl, rfl, rfl, rfl, rfl, rfl, rfl, rfl, rfl⟩

end Mascon
